import Mathlib

/-!
Shallow embedding of the rule-based medical triage core
(`medical_diagnostic_agent`): the knowledge tables in
`data/mock_medical_data.py` and the operations in
`tools/medical_knowledge.py` and `tools/risk_assessment.py`.

Modelling conventions:
* Python strings are Lean `String`s; `str.lower` / `str.strip` /
  `str.replace(" ", "_")` are modelled character-wise on ASCII input
  (the knowledge tables and all tokens in play are ASCII).
* Python floats are modelled as exact rationals (`Rat`); `int(x)` on a
  non-negative product is floor.  The `"{:.1f}"` float format is modelled
  as round-half-even to one decimal digit of the exact rational.
* Python dicts appearing as inputs are association lists in insertion
  order; a returned dict is a Lean structure, one field per key, with an
  `error` return filling the non-`status`/`message` fields with inert
  defaults.
-/

namespace Triage

/-- Model of Python `str.lower` for one ASCII character. -/
def pyCharLower (c : Char) : Char :=
  if 65 ≤ c.toNat ∧ c.toNat ≤ 90 then Char.ofNat (c.toNat + 32) else c

/-- Model of Python `str.lower` (ASCII). -/
def pyLower (s : String) : String :=
  String.mk (s.toList.map pyCharLower)

/-- Whitespace characters stripped by Python `str.strip`. -/
def isPyWhitespace (c : Char) : Bool :=
  c = ' ' ∨ c = '\t' ∨ c = '\n' ∨ c = '\r' ∨ c = '\x0b' ∨ c = '\x0c'

/-- Model of Python `str.strip`. -/
def pyStrip (s : String) : String :=
  String.mk (((s.toList.dropWhile isPyWhitespace).reverse.dropWhile isPyWhitespace).reverse)

/-- Model of Python `str.replace(" ", "_")`. -/
def pyReplaceSpace (s : String) : String :=
  String.mk (s.toList.map (fun c => if c = ' ' then '_' else c))

/-- Numeric value of a list of decimal digit characters. -/
def digitsVal (cs : List Char) : Nat :=
  cs.foldl (fun a c => a * 10 + (c.toNat - 48)) 0

/-- Model of Python `int(s)` on a string: strip whitespace, optional sign,
then a non-empty run of decimal digits; anything else raises `ValueError`
(modelled as `none`). -/
def parseIntStr (s : String) : Option Int :=
  match (pyStrip s).toList with
  | [] => none
  | c :: rest =>
    if c = '-' then
      if rest ≠ [] ∧ rest.all Char.isDigit then some (-(digitsVal rest : Int)) else none
    else if c = '+' then
      if rest ≠ [] ∧ rest.all Char.isDigit then some ((digitsVal rest : Int)) else none
    else
      if (c :: rest).all Char.isDigit then some ((digitsVal (c :: rest) : Int)) else none

/-- A dynamically typed Python value as it appears in a `severity` field. -/
inductive PyVal where
  | pyInt (n : Int)
  | pyStr (s : String)
  | pyNone
deriving DecidableEq

/-- Model of Python `int(v)` on a dynamic value: ints pass through, strings
are parsed, `None` raises `TypeError` (modelled as `none`). -/
def pyToInt : PyVal → Option Int
  | .pyInt n => some n
  | .pyStr s => parseIntStr s
  | .pyNone => none

/-- The value attached to one symptom in a `symptom_details` mapping: either
not a dict at all (the `isinstance(details, dict)` guard fails) or a dict
with optional `severity` and `duration` keys. -/
inductive Details where
  | notDict
  | dict (severity : Option PyVal) (duration : Option PyVal)
deriving DecidableEq

/-- The parsed integer severity of one details entry, when the entry is a
dict, has a `severity` key, and `int(...)` succeeds on it. -/
def Details.severityParsed : Details → Option Int
  | .dict (some v) _ => pyToInt v
  | _ => none

/-! ### Knowledge tables (`data/mock_medical_data.py`) -/

/-- `SYMPTOM_CONDITIONS`: symptom → candidate conditions. -/
def SYMPTOM_CONDITIONS : List (String × List String) :=
  [ ("fever", ["common_cold", "flu", "infection", "covid"]),
    ("cough", ["common_cold", "flu", "bronchitis", "pneumonia", "covid"]),
    ("sore_throat", ["common_cold", "flu", "strep_throat"]),
    ("runny_nose", ["common_cold", "allergies", "flu"]),
    ("headache", ["tension_headache", "migraine", "flu", "dehydration"]),
    ("chest_pain", ["heart_attack", "angina", "muscle_strain", "anxiety"]),
    ("shortness_of_breath", ["asthma", "heart_attack", "pneumonia", "anxiety"]),
    ("nausea", ["food_poisoning", "flu", "migraine", "pregnancy"]),
    ("vomiting", ["food_poisoning", "flu", "migraine", "gastroenteritis"]),
    ("diarrhea", ["food_poisoning", "gastroenteritis", "ibs", "stress"]),
    ("fatigue", ["flu", "anemia", "depression", "sleep_deprivation"]),
    ("dizziness", ["dehydration", "low_blood_pressure", "inner_ear_problem"]) ]

/-- `RED_FLAG_SYMPTOMS` (a Python set; membership test only). -/
def RED_FLAG_SYMPTOMS : List String :=
  [ "severe_chest_pain",
    "difficulty_breathing",
    "severe_abdominal_pain",
    "severe_headache",
    "loss_of_consciousness",
    "severe_bleeding",
    "signs_of_stroke",
    "severe_allergic_reaction" ]

/-- A record of the `CONDITION_INFO` table. -/
structure ConditionInfo where
  description : String
  care_level : String
  recommendations : List String
deriving DecidableEq

/-- `CONDITION_INFO`: condition → description, care level, recommendations. -/
def CONDITION_INFO : List (String × ConditionInfo) :=
  [ ("common_cold",
      { description := "Viral upper respiratory infection",
        care_level := "routine",
        recommendations :=
          [ "Rest and hydration",
            "Over-the-counter medications for symptom relief",
            "See a doctor if symptoms worsen or last more than 10 days" ] }),
    ("flu",
      { description := "Influenza viral infection",
        care_level := "routine",
        recommendations :=
          [ "Rest and hydration",
            "Antiviral medications if caught early",
            "Monitor for complications" ] }),
    ("heart_attack",
      { description := "Acute myocardial infarction",
        care_level := "emergency",
        recommendations :=
          [ "Call 911 immediately",
            "Chew aspirin if not allergic",
            "Do not drive yourself to hospital" ] }),
    ("pneumonia",
      { description := "Lung infection causing inflammation",
        care_level := "urgent",
        recommendations :=
          [ "See a doctor promptly",
            "May require antibiotics",
            "Monitor breathing and fever" ] }),
    ("anxiety",
      { description := "Anxiety disorder with physical symptoms",
        care_level := "routine",
        recommendations :=
          [ "Practice relaxation techniques",
            "Consider counseling",
            "See primary care doctor for evaluation" ] }) ]

/-- One age band of `AGE_RISK_FACTORS`. -/
structure AgeBand where
  name : String
  age_min : Int
  age_max : Int
  risk_multiplier : Rat
deriving DecidableEq

/-- `AGE_RISK_FACTORS` in declaration (hence iteration) order; the float
multipliers 1.2 / 1.0 / 1.5 are the rationals 6/5, 1, 3/2. -/
def AGE_RISK_FACTORS : List AgeBand :=
  [ { name := "pediatric", age_min := 0, age_max := 17, risk_multiplier := mkRat 6 5 },
    { name := "adult", age_min := 18, age_max := 64, risk_multiplier := 1 },
    { name := "elderly", age_min := 65, age_max := 120, risk_multiplier := mkRat 3 2 } ]

/-- Insert an element into an accumulated list unless already present:
the effect of Python `set.update` on one element, with the set modelled
as a duplicate-free list in first-insertion order. -/
def addNew (acc : List String) (c : String) : List String :=
  if c ∈ acc then acc else acc ++ [c]

/-- One iteration of the `get_conditions_for_symptoms` loop: if the symptom
has a table entry, add its conditions to the accumulated set, else leave it
unchanged. -/
def condUnionStep (acc : List String) (symptom : String) : List String :=
  match SYMPTOM_CONDITIONS.lookup symptom with
  | some conds => conds.foldl addNew acc
  | none => acc

/-- `get_conditions_for_symptoms`: union over the input symptoms of their
`SYMPTOM_CONDITIONS` entries (a Python set, modelled as a duplicate-free
list). -/
def get_conditions_for_symptoms (symptoms : List String) : List String :=
  symptoms.foldl condUnionStep []

/-- `is_red_flag_symptom`: membership of `symptom.lower().replace(" ", "_")`
in `RED_FLAG_SYMPTOMS`. -/
def is_red_flag_symptom (symptom : String) : Bool :=
  RED_FLAG_SYMPTOMS.contains (pyReplaceSpace (pyLower symptom))

/-! ### `tools/medical_knowledge.py` -/

/-- Result dict of `lookup_medical_conditions`. -/
structure LookupResult where
  status : String
  message : String
  symptoms_analyzed : List String
  possible_conditions : List String
  condition_details : List (String × ConditionInfo)
  red_flag_symptoms : List String
  requires_immediate_attention : Bool
deriving DecidableEq

/-- `lookup_medical_conditions`. -/
def lookup_medical_conditions (symptoms : List String) : LookupResult :=
  if symptoms.isEmpty then
    { status := "error", message := "No symptoms provided for lookup",
      symptoms_analyzed := [], possible_conditions := [], condition_details := [],
      red_flag_symptoms := [], requires_immediate_attention := false }
  else
    let normalized_symptoms := symptoms.map (fun s => pyStrip (pyLower s))
    let possible_conditions := get_conditions_for_symptoms normalized_symptoms
    let red_flags := normalized_symptoms.filter (fun s => is_red_flag_symptom s)
    let condition_details := possible_conditions.filterMap
      (fun c => (CONDITION_INFO.lookup c).map (fun i => (c, i)))
    { status := "success", message := "",
      symptoms_analyzed := normalized_symptoms,
      possible_conditions := possible_conditions,
      condition_details := condition_details,
      red_flag_symptoms := red_flags,
      requires_immediate_attention := red_flags.length > 0 }

/-- Result dict of `analyze_symptom_pattern`. -/
structure PatternResult where
  status : String
  message : String
  analyzed_symptoms : List String
  average_severity : Rat
  urgency_level : String
  concerning_combinations : List String
  pattern_summary : String
deriving DecidableEq

/-- Round-half-even of a rational to an integer: model of Python float
rounding as used by the `"{:.1f}"` format (on the exact value).  The
fractional part `q - ⌊q⌋` is compared with 1/2 through the integer
`2 * (q.num - ⌊q⌋ * q.den)` against `q.den`. -/
def roundHalfEven (q : Rat) : Int :=
  let f : Int := q.floor
  let rnum : Int := 2 * (q.num - f * (q.den : Int))
  if rnum < (q.den : Int) then f
  else if (q.den : Int) < rnum then f + 1
  else if f % 2 = 0 then f else f + 1

/-- Model of Python `"{:.1f}".format(q)`: one decimal digit, round half to
even on the exact rational value (`mkRat (q.num * 10) q.den` is `q * 10`). -/
def fmt1 (q : Rat) : String :=
  let n : Int := roundHalfEven (mkRat (q.num * 10) q.den)
  if n < 0 then
    "-" ++ toString ((-n).toNat / 10) ++ "." ++ toString ((-n).toNat % 10)
  else
    toString (n.toNat / 10) ++ "." ++ toString (n.toNat % 10)

/-- Severity scores successfully parsed from a `symptoms_with_details`
mapping, in iteration order (the `try: severity_scores.append(int(...))`
loop; parse failures and missing keys are skipped). -/
def parsedSeverities (symptoms_with_details : List (String × Details)) : List Int :=
  symptoms_with_details.filterMap (fun p => p.2.severityParsed)

/-- Average severity of `analyze_symptom_pattern`: mean of the parsed
scores, or 0 if none parsed (exact rational value of the float division). -/
def averageSeverity (symptoms_with_details : List (String × Details)) : Rat :=
  let severity_scores := parsedSeverities symptoms_with_details
  if severity_scores.isEmpty then 0
  else mkRat severity_scores.sum severity_scores.length

/-- Severity-based urgency baseline of `analyze_symptom_pattern`. -/
def baseUrgency (avg_severity : Rat) : String :=
  if avg_severity ≥ 8 then "urgent"
  else if avg_severity ≥ 6 then "moderate"
  else "routine"

/-- `analyze_symptom_pattern`.  The input dict is an association list of
symptom name → details in insertion order.  The two concerning-combination
rules run after the severity baseline, in source order; each assignment to
`urgency` is modelled by the corresponding `if`. -/
def analyze_symptom_pattern (symptoms_with_details : List (String × Details)) : PatternResult :=
  if symptoms_with_details.isEmpty then
    { status := "error", message := "No symptom details provided",
      analyzed_symptoms := [], average_severity := 0, urgency_level := "",
      concerning_combinations := [], pattern_summary := "" }
  else
    let symptoms := symptoms_with_details.map Prod.fst
    let avg_severity := averageSeverity symptoms_with_details
    let combo1 : Prop := "chest_pain" ∈ symptoms ∧ "shortness_of_breath" ∈ symptoms
    let combo2 : Prop := "severe_headache" ∈ symptoms ∧ "fever" ∈ symptoms
    let urgency1 := if combo1 then "emergency" else baseUrgency avg_severity
    let urgency2 := if combo2 then "urgent" else urgency1
    let concerning :=
      (if combo1 then ["chest_pain_with_breathing_difficulty"] else []) ++
      (if combo2 then ["headache_with_fever"] else [])
    { status := "success", message := "",
      analyzed_symptoms := symptoms,
      average_severity := avg_severity,
      urgency_level := urgency2,
      concerning_combinations := concerning,
      pattern_summary :=
        "Patient reports " ++ toString symptoms.length ++
        " symptoms with average severity " ++ fmt1 avg_severity }

/-! ### `tools/risk_assessment.py` -/

/-- The fields of `patient_info` read by `assess_patient_risk`; `age = none`
models a dict with no `"age"` key (`patient_info.get("age", 0)`). -/
structure PatientInfo where
  age : Option Int
  medical_history : List String
deriving DecidableEq

/-- Result dict of `assess_patient_risk`. -/
structure RiskResult where
  status : String
  message : String
  risk_score : Int
  care_level : String
  risk_factors : List String
  red_flag_count : Nat
  age_risk_multiplier : Rat
  immediate_attention_required : Bool
deriving DecidableEq

/-- The `high_risk_conditions` list local to `assess_patient_risk`. -/
def HIGH_RISK_CONDITIONS : List String :=
  ["heart_disease", "diabetes", "hypertension", "copd", "cancer"]

/-- Red-flag test as `assess_patient_risk` performs it: `lower()` and
space→underscore, with no `strip`. -/
def riskRedFlag (s : String) : Bool :=
  RED_FLAG_SYMPTOMS.contains (pyReplaceSpace (pyLower s))

/-- Point contribution and note of one `symptom_details` entry in
`assess_patient_risk` (severity ≥ 8 → +5, 6 ≤ severity < 8 → +2,
otherwise nothing). -/
def severityContribution (p : String × Details) : Option (Int × String) :=
  match p.2.severityParsed with
  | some sev =>
    if sev ≥ 8 then
      some (5, "High severity " ++ p.1 ++ " (severity: " ++ toString sev ++ ")")
    else if sev ≥ 6 then
      some (2, "Moderate severity " ++ p.1 ++ " (severity: " ++ toString sev ++ ")")
    else none
  | none => none

/-- First age band of `AGE_RISK_FACTORS` whose inclusive range contains the
age (the `for ... break` loop over the dict in declaration order). -/
def bandFor (age : Int) : Option AgeBand :=
  AGE_RISK_FACTORS.find? (fun b => decide (b.age_min ≤ age ∧ age ≤ b.age_max))

/-- Age risk multiplier: the matched band's, else the initial 1.0. -/
def ageMultiplier (age : Int) : Rat :=
  match bandFor age with
  | some b => b.risk_multiplier
  | none => 1

/-- Age risk-factor notes: appended only when the matched band's multiplier
is strictly above 1.0. -/
def ageFactors (age : Int) : List String :=
  match bandFor age with
  | some b =>
    if b.risk_multiplier > 1 then ["Age group (" ++ b.name ++ ") increases risk"]
    else []
  | none => []

/-- Symptoms that pass the red-flag test of `assess_patient_risk`. -/
def redFlagSyms (symptoms : List String) : List String :=
  symptoms.filter riskRedFlag

/-- Medical-history entries matching the high-risk condition list
(case-insensitively). -/
def historyMatches (medical_history : List String) : List String :=
  medical_history.filter (fun c => HIGH_RISK_CONDITIONS.contains (pyLower c))

/-- Scored `symptom_details` entries: point value and note per entry with a
parsable severity ≥ 6 (`if symptom_details:` treats a missing dict as
empty). -/
def sevEntries (symptom_details : Option (List (String × Details))) : List (Int × String) :=
  (symptom_details.getD []).filterMap severityContribution

/-- Pre-multiplier risk score: 10 per red flag, 3 per matching history
entry, plus the severity contributions, accumulated in source order. -/
def preScore (symptoms : List String) (patient_info : PatientInfo)
    (symptom_details : Option (List (String × Details))) : Int :=
  10 * ((redFlagSyms symptoms).length : Int) +
    3 * ((historyMatches patient_info.medical_history).length : Int) +
    ((sevEntries symptom_details).map Prod.fst).sum

/-- Model of `int(risk_score * age_risk_multiplier)`: the float product is
the exact rational `mkRat (pre * m.num) m.den`, and `int` truncation equals
floor because the product is non-negative. -/
def applyMultiplier (pre : Int) (m : Rat) : Int :=
  (mkRat (pre * m.num) m.den).floor

/-- Care level from red-flag count and post-multiplier score, evaluated
highest-to-lowest, first match wins. -/
def careLevelOf (red_flag_count : Nat) (risk_score : Int) : String :=
  if red_flag_count > 0 ∨ risk_score ≥ 20 then "emergency"
  else if risk_score ≥ 10 then "urgent"
  else if risk_score ≥ 5 then "moderate"
  else "routine"

/-- `assess_patient_risk`. -/
def assess_patient_risk (symptoms : List String) (patient_info : PatientInfo)
    (symptom_details : Option (List (String × Details))) : RiskResult :=
  if symptoms.isEmpty then
    { status := "error", message := "No symptoms provided for risk assessment",
      risk_score := 0, care_level := "", risk_factors := [], red_flag_count := 0,
      age_risk_multiplier := 1, immediate_attention_required := false }
  else
    let age := patient_info.age.getD 0
    let risk_score : Int :=
      applyMultiplier (preScore symptoms patient_info symptom_details) (ageMultiplier age)
    let care_level : String := careLevelOf (redFlagSyms symptoms).length risk_score
    { status := "success", message := "",
      risk_score := risk_score,
      care_level := care_level,
      risk_factors :=
        ageFactors age ++
        (redFlagSyms symptoms).map (fun s => "Red flag symptom: " ++ s) ++
        (historyMatches patient_info.medical_history).map (fun c => "Medical history: " ++ c) ++
        (sevEntries symptom_details).map Prod.snd,
      red_flag_count := (redFlagSyms symptoms).length,
      age_risk_multiplier := ageMultiplier age,
      immediate_attention_required := decide (care_level = "emergency") }

/-- The two fields of the `risk_assessment` dict read by
`generate_care_recommendations` (after its `.get` defaults). -/
structure RiskAssessmentInput where
  care_level : String
  immediate_attention_required : Bool
deriving DecidableEq

/-- Result dict of `generate_care_recommendations`. -/
structure RecResult where
  status : String
  care_level : String
  immediate_attention_required : Bool
  primary_recommendations : List String
  additional_recommendations : List String
  next_steps : List String
  follow_up_timeline : String
deriving DecidableEq

/-- The emergency recommendation block. -/
def EMERGENCY_RECOMMENDATIONS : List String :=
  [ "Seek immediate emergency medical attention",
    "Call 911 or go to the nearest emergency room",
    "Do not delay seeking care" ]

/-- The urgent recommendation block. -/
def URGENT_RECOMMENDATIONS : List String :=
  [ "Seek medical attention within 24 hours",
    "Contact your primary care doctor or urgent care center",
    "Monitor symptoms closely" ]

/-- The moderate recommendation block. -/
def MODERATE_RECOMMENDATIONS : List String :=
  [ "Schedule appointment with primary care doctor within 2-3 days",
    "Monitor symptoms and seek care if they worsen",
    "Consider over-the-counter treatments for symptom relief" ]

/-- The routine recommendation block. -/
def ROUTINE_RECOMMENDATIONS : List String :=
  [ "Consider scheduling routine appointment with primary care doctor",
    "Try conservative home treatments",
    "Monitor symptoms and seek care if they persist or worsen" ]

/-- The fixed `general_recommendations` list. -/
def GENERAL_RECOMMENDATIONS : List String :=
  [ "Stay hydrated",
    "Get adequate rest",
    "Monitor symptoms for changes",
    "Keep a symptom diary",
    "Follow up if symptoms worsen or new symptoms develop" ]

/-- Condition-specific recommendation strings: for each candidate condition
present in `CONDITION_INFO`, its recommendations prefixed with the
condition identifier. -/
def conditionRecommendations (possible_conditions : List String) : List String :=
  possible_conditions.foldl (fun acc c =>
    match CONDITION_INFO.lookup c with
    | some info => acc ++ info.recommendations.map (fun r => "For " ++ c ++ ": " ++ r)
    | none => acc) []

/-- `_get_follow_up_timeline`. -/
def get_follow_up_timeline (care_level : String) : String :=
  if care_level = "emergency" then "Immediate"
  else if care_level = "urgent" then "Within 24 hours"
  else if care_level = "moderate" then "Within 2-3 days"
  else if care_level = "routine" then "Within 1-2 weeks if symptoms persist"
  else "As needed"

/-- `generate_care_recommendations`. -/
def generate_care_recommendations (risk_assessment : RiskAssessmentInput)
    (possible_conditions : List String) : RecResult :=
  let care_level := risk_assessment.care_level
  let immediate_attention := risk_assessment.immediate_attention_required
  let blockSteps : List String × List String :=
    if immediate_attention = true ∨ care_level = "emergency" then
      (EMERGENCY_RECOMMENDATIONS, ["Emergency care required immediately"])
    else if care_level = "urgent" then
      (URGENT_RECOMMENDATIONS, ["Schedule urgent medical appointment"])
    else if care_level = "moderate" then
      (MODERATE_RECOMMENDATIONS, ["Schedule medical appointment within few days"])
    else
      (ROUTINE_RECOMMENDATIONS, ["Consider routine medical follow-up"])
  let recommendations := blockSteps.1 ++ conditionRecommendations possible_conditions
  { status := "success",
    care_level := care_level,
    immediate_attention_required := immediate_attention,
    primary_recommendations := recommendations.take 3,
    additional_recommendations := recommendations.drop 3 ++ GENERAL_RECOMMENDATIONS,
    next_steps := blockSteps.2,
    follow_up_timeline := get_follow_up_timeline care_level }

/-- Rank of a care level in the ordinal order
routine < moderate < urgent < emergency (unknown strings rank lowest). -/
def careRank (care_level : String) : Nat :=
  if care_level = "emergency" then 3
  else if care_level = "urgent" then 2
  else if care_level = "moderate" then 1
  else 0

/-! ### Helper lemmas -/

/-- Success form of `assess_patient_risk` on a non-empty symptom list. -/
lemma assess_patient_risk_eq (symptoms : List String) (pi : PatientInfo)
    (sd : Option (List (String × Details))) (h : symptoms ≠ []) :
    assess_patient_risk symptoms pi sd =
      { status := "success", message := "",
        risk_score := applyMultiplier (preScore symptoms pi sd) (ageMultiplier (pi.age.getD 0)),
        care_level := careLevelOf (redFlagSyms symptoms).length
          (applyMultiplier (preScore symptoms pi sd) (ageMultiplier (pi.age.getD 0))),
        risk_factors :=
          ageFactors (pi.age.getD 0) ++
          (redFlagSyms symptoms).map (fun s => "Red flag symptom: " ++ s) ++
          (historyMatches pi.medical_history).map (fun c => "Medical history: " ++ c) ++
          (sevEntries sd).map Prod.snd,
        red_flag_count := (redFlagSyms symptoms).length,
        age_risk_multiplier := ageMultiplier (pi.age.getD 0),
        immediate_attention_required := decide (careLevelOf (redFlagSyms symptoms).length
          (applyMultiplier (preScore symptoms pi sd) (ageMultiplier (pi.age.getD 0))) = "emergency") } := by
  cases symptoms with
  | nil => exact absurd rfl h
  | cons a l => rfl

/-- Success form of `analyze_symptom_pattern` on a non-empty input. -/
lemma analyze_symptom_pattern_eq (swd : List (String × Details)) (h : swd ≠ []) :
    analyze_symptom_pattern swd =
      { status := "success", message := "",
        analyzed_symptoms := swd.map Prod.fst,
        average_severity := averageSeverity swd,
        urgency_level :=
          (if ("severe_headache" ∈ swd.map Prod.fst ∧ "fever" ∈ swd.map Prod.fst) then "urgent"
           else if ("chest_pain" ∈ swd.map Prod.fst ∧ "shortness_of_breath" ∈ swd.map Prod.fst) then "emergency"
           else baseUrgency (averageSeverity swd)),
        concerning_combinations :=
          (if ("chest_pain" ∈ swd.map Prod.fst ∧ "shortness_of_breath" ∈ swd.map Prod.fst)
            then ["chest_pain_with_breathing_difficulty"] else []) ++
          (if ("severe_headache" ∈ swd.map Prod.fst ∧ "fever" ∈ swd.map Prod.fst)
            then ["headache_with_fever"] else []),
        pattern_summary :=
          "Patient reports " ++ toString (swd.map Prod.fst).length ++
          " symptoms with average severity " ++ fmt1 (averageSeverity swd) } := by
  cases swd with
  | nil => exact absurd rfl h
  | cons a l => rfl

/-- Success form of `lookup_medical_conditions` on a non-empty symptom list. -/
lemma lookup_medical_conditions_eq (symptoms : List String) (h : symptoms ≠ []) :
    lookup_medical_conditions symptoms =
      { status := "success", message := "",
        symptoms_analyzed := symptoms.map (fun s => pyStrip (pyLower s)),
        possible_conditions := get_conditions_for_symptoms (symptoms.map (fun s => pyStrip (pyLower s))),
        condition_details := (get_conditions_for_symptoms (symptoms.map (fun s => pyStrip (pyLower s)))).filterMap
          (fun c => (CONDITION_INFO.lookup c).map (fun i => (c, i))),
        red_flag_symptoms := (symptoms.map (fun s => pyStrip (pyLower s))).filter (fun s => is_red_flag_symptom s),
        requires_immediate_attention :=
          decide (((symptoms.map (fun s => pyStrip (pyLower s))).filter (fun s => is_red_flag_symptom s)).length > 0) } := by
  cases symptoms with
  | nil => exact absurd rfl h
  | cons a l => rfl

/-- Age band selected for an adult age. -/
lemma bandFor_adult (age : Int) (hlo : 18 ≤ age) (hhi : age ≤ 64) :
    bandFor age = some { name := "adult", age_min := 18, age_max := 64, risk_multiplier := 1 } := by
  unfold bandFor AGE_RISK_FACTORS
  rw [List.find?_cons_of_neg _ (by simp; omega), List.find?_cons_of_pos _ (by simp; omega)]

/-- No age band matches an age below 0 or above 120. -/
lemma bandFor_outside (age : Int) (hout : age < 0 ∨ 120 < age) : bandFor age = none := by
  unfold bandFor
  rw [List.find?_eq_none]
  intro b hb
  fin_cases hb <;> simp <;> omega

/-- Membership after one `addNew` insertion. -/
lemma mem_addNew (acc : List String) (x c : String) : c ∈ addNew acc x ↔ c ∈ acc ∨ c = x := by
  unfold addNew
  split_ifs with hx
  · constructor
    · exact Or.inl
    · rintro (hc | rfl)
      · exact hc
      · exact hx
  · simp

/-- `addNew` preserves freedom from duplicates. -/
lemma nodup_addNew (acc : List String) (x : String) (h : acc.Nodup) : (addNew acc x).Nodup := by
  unfold addNew
  split_ifs with hx
  · exact h
  · simp [List.nodup_append, h, hx]

/-- Membership after inserting a whole list with `addNew`. -/
lemma mem_foldl_addNew (l acc : List String) (c : String) :
    c ∈ l.foldl addNew acc ↔ c ∈ acc ∨ c ∈ l := by
  induction l generalizing acc with
  | nil => simp
  | cons x xs ih =>
    rw [List.foldl_cons, ih, mem_addNew]
    simp [List.mem_cons]
    tauto

/-- Inserting a whole list with `addNew` preserves freedom from duplicates. -/
lemma nodup_foldl_addNew (l : List String) (acc : List String) (h : acc.Nodup) :
    (l.foldl addNew acc).Nodup := by
  induction l generalizing acc with
  | nil => exact h
  | cons x xs ih => exact ih _ (nodup_addNew _ _ h)

/-- Membership after one `condUnionStep`. -/
lemma mem_condUnionStep (acc : List String) (s c : String) :
    c ∈ condUnionStep acc s ↔ c ∈ acc ∨ c ∈ (SYMPTOM_CONDITIONS.lookup s).getD [] := by
  unfold condUnionStep
  cases hl : SYMPTOM_CONDITIONS.lookup s with
  | none => simp
  | some conds => simp [mem_foldl_addNew]

/-- `condUnionStep` preserves freedom from duplicates. -/
lemma nodup_condUnionStep (acc : List String) (s : String) (h : acc.Nodup) :
    (condUnionStep acc s).Nodup := by
  unfold condUnionStep
  cases SYMPTOM_CONDITIONS.lookup s with
  | none => exact h
  | some conds => exact nodup_foldl_addNew _ _ h

/-- Membership in the accumulated condition union. -/
lemma mem_foldl_condUnionStep (symptoms acc : List String) (c : String) :
    c ∈ symptoms.foldl condUnionStep acc ↔
      c ∈ acc ∨ ∃ s ∈ symptoms, c ∈ (SYMPTOM_CONDITIONS.lookup s).getD [] := by
  induction symptoms generalizing acc with
  | nil => simp
  | cons x xs ih =>
    rw [List.foldl_cons, ih, mem_condUnionStep]
    simp only [List.mem_cons]
    constructor
    · rintro ((hc | hx) | ⟨s, hs, hcs⟩)
      · exact Or.inl hc
      · exact Or.inr ⟨x, Or.inl rfl, hx⟩
      · exact Or.inr ⟨s, Or.inr hs, hcs⟩
    · rintro (hc | ⟨s, (rfl | hs), hcs⟩)
      · exact Or.inl (Or.inl hc)
      · exact Or.inl (Or.inr hcs)
      · exact Or.inr ⟨s, hs, hcs⟩

/-- The accumulated condition union stays duplicate-free. -/
lemma nodup_foldl_condUnionStep (symptoms acc : List String) (h : acc.Nodup) :
    (symptoms.foldl condUnionStep acc).Nodup := by
  induction symptoms generalizing acc with
  | nil => exact h
  | cons x xs ih => exact ih _ (nodup_condUnionStep _ _ h)

/-- Every token of the red-flag set passes both red-flag tests as is. -/
lemma red_flag_token_tests : ∀ t ∈ RED_FLAG_SYMPTOMS,
    riskRedFlag t = true ∧ is_red_flag_symptom (pyStrip (pyLower t)) = true := by decide

/-- Care ranks never exceed the emergency rank. -/
lemma careRank_le_three (c : String) : careRank c ≤ 3 := by
  unfold careRank
  split_ifs <;> omega

/-! ### Claim theorems -/

/-- Claim C1, counterexample: on the input whose symptom keys are exactly
chest_pain, shortness_of_breath, severe_headache and fever, the final
urgency_level is "urgent", not "emergency" as the claim states, while both
combination tags are present — the second rule overwrites urgency
unconditionally. -/
theorem combination_rules_all_four_counterexample :
    (analyze_symptom_pattern
      [("chest_pain", Details.dict none none), ("shortness_of_breath", Details.dict none none),
       ("severe_headache", Details.dict none none), ("fever", Details.dict none none)]).urgency_level
      = "urgent" ∧
    ¬ (analyze_symptom_pattern
      [("chest_pain", Details.dict none none), ("shortness_of_breath", Details.dict none none),
       ("severe_headache", Details.dict none none), ("fever", Details.dict none none)]).urgency_level
      = "emergency" ∧
    "chest_pain_with_breathing_difficulty" ∈ (analyze_symptom_pattern
      [("chest_pain", Details.dict none none), ("shortness_of_breath", Details.dict none none),
       ("severe_headache", Details.dict none none), ("fever", Details.dict none none)]).concerning_combinations ∧
    "headache_with_fever" ∈ (analyze_symptom_pattern
      [("chest_pain", Details.dict none none), ("shortness_of_breath", Details.dict none none),
       ("severe_headache", Details.dict none none), ("fever", Details.dict none none)]).concerning_combinations := by
  decide

/-- Claim C1, amended: the two combination rules run after the severity
baseline in fixed order, but BOTH assignments are unconditional — the
severe_headache+fever rule overwrites even a previously set "emergency" —
so every input containing all four symptoms ends with urgency_level
"urgent" and both tags in concerning_combinations. -/
theorem combination_rules_override_order (swd : List (String × Details))
    (h1 : "chest_pain" ∈ swd.map Prod.fst) (h2 : "shortness_of_breath" ∈ swd.map Prod.fst)
    (h3 : "severe_headache" ∈ swd.map Prod.fst) (h4 : "fever" ∈ swd.map Prod.fst) :
    (analyze_symptom_pattern swd).urgency_level = "urgent" ∧
    "chest_pain_with_breathing_difficulty" ∈ (analyze_symptom_pattern swd).concerning_combinations ∧
    "headache_with_fever" ∈ (analyze_symptom_pattern swd).concerning_combinations := by
  have hne : swd.isEmpty = false := by
    cases swd with
    | nil => simp at h1
    | cons a l => rfl
  simp [analyze_symptom_pattern, hne, h1, h2, h3, h4]

/-- Witness for the amended claim C1 at a concrete four-symptom input. -/
theorem combination_rules_override_order_witness :
    (analyze_symptom_pattern
      [("chest_pain", Details.dict none none), ("fever", Details.dict none none),
       ("severe_headache", Details.dict none none),
       ("shortness_of_breath", Details.dict none none)]).urgency_level = "urgent" ∧
    "chest_pain_with_breathing_difficulty" ∈ (analyze_symptom_pattern
      [("chest_pain", Details.dict none none), ("fever", Details.dict none none),
       ("severe_headache", Details.dict none none),
       ("shortness_of_breath", Details.dict none none)]).concerning_combinations ∧
    "headache_with_fever" ∈ (analyze_symptom_pattern
      [("chest_pain", Details.dict none none), ("fever", Details.dict none none),
       ("severe_headache", Details.dict none none),
       ("shortness_of_breath", Details.dict none none)]).concerning_combinations :=
  combination_rules_override_order _ (by decide) (by decide) (by decide) (by decide)

/-- Claim C2: for every non-empty symptom list, the care level is determined
from the red-flag count and the post-multiplier score by first match
highest-to-lowest — emergency iff red flags or score ≥ 20, else urgent iff
score ≥ 10, else moderate iff score ≥ 5, else routine — and
immediate_attention_required holds exactly for the emergency level. -/
theorem care_level_threshold_characterization (symptoms : List String) (pi : PatientInfo)
    (sd : Option (List (String × Details))) (h : symptoms ≠ []) :
    ((assess_patient_risk symptoms pi sd).care_level = "emergency" ↔
      (0 < (assess_patient_risk symptoms pi sd).red_flag_count ∨
        20 ≤ (assess_patient_risk symptoms pi sd).risk_score)) ∧
    ((assess_patient_risk symptoms pi sd).care_level = "urgent" ↔
      (¬ (0 < (assess_patient_risk symptoms pi sd).red_flag_count ∨
          20 ≤ (assess_patient_risk symptoms pi sd).risk_score) ∧
        10 ≤ (assess_patient_risk symptoms pi sd).risk_score)) ∧
    ((assess_patient_risk symptoms pi sd).care_level = "moderate" ↔
      (¬ (0 < (assess_patient_risk symptoms pi sd).red_flag_count ∨
          20 ≤ (assess_patient_risk symptoms pi sd).risk_score) ∧
        ¬ 10 ≤ (assess_patient_risk symptoms pi sd).risk_score ∧
        5 ≤ (assess_patient_risk symptoms pi sd).risk_score)) ∧
    ((assess_patient_risk symptoms pi sd).care_level = "routine" ↔
      (¬ (0 < (assess_patient_risk symptoms pi sd).red_flag_count ∨
          20 ≤ (assess_patient_risk symptoms pi sd).risk_score) ∧
        ¬ 10 ≤ (assess_patient_risk symptoms pi sd).risk_score ∧
        ¬ 5 ≤ (assess_patient_risk symptoms pi sd).risk_score)) ∧
    ((assess_patient_risk symptoms pi sd).immediate_attention_required = true ↔
      (assess_patient_risk symptoms pi sd).care_level = "emergency") := by
  rw [assess_patient_risk_eq symptoms pi sd h]
  generalize (redFlagSyms symptoms).length = n
  generalize applyMultiplier (preScore symptoms pi sd) (ageMultiplier (pi.age.getD 0)) = s
  simp only [decide_eq_true_eq]
  unfold careLevelOf
  split_ifs with h1 h2 h3 <;> simp_all

/-- Witness for claim C2 at a concrete red-flag input. -/
theorem care_level_threshold_characterization_witness :
    (assess_patient_risk ["severe_chest_pain"]
        { age := some 30, medical_history := [] } none).care_level = "emergency" ↔
      (0 < (assess_patient_risk ["severe_chest_pain"]
        { age := some 30, medical_history := [] } none).red_flag_count ∨
        20 ≤ (assess_patient_risk ["severe_chest_pain"]
        { age := some 30, medical_history := [] } none).risk_score) :=
  (care_level_threshold_characterization ["severe_chest_pain"]
    { age := some 30, medical_history := [] } none (by decide)).1

/-- Claim C3, counterexample: the token " severe_chest_pain" (with a leading
space) is a red flag after lower+strip+underscore normalization as the claim
describes, yet assess_patient_risk counts no red flag for it, because the
code never strips — the surrounding space becomes an underscore. -/
theorem red_flag_whitespace_counterexample :
    pyReplaceSpace (pyStrip (pyLower " severe_chest_pain")) ∈ RED_FLAG_SYMPTOMS ∧
    (assess_patient_risk [" severe_chest_pain"]
      { age := some 30, medical_history := [] } none).red_flag_count = 0 := by
  decide

/-- Claim C3, amended: a reported symptom is counted as a red flag exactly
when `lower()` followed by space→underscore replacement (with NO strip)
lands in the red-flag set; consequently every red-flag token is counted as
given, but the same token with surrounding whitespace added is NOT counted. -/
theorem red_flag_normalization_no_strip :
    (∀ (symptoms : List String) (pi : PatientInfo) (sd : Option (List (String × Details))),
      symptoms ≠ [] →
      (assess_patient_risk symptoms pi sd).red_flag_count =
        (symptoms.filter (fun s => RED_FLAG_SYMPTOMS.contains (pyReplaceSpace (pyLower s)))).length) ∧
    (∀ t ∈ RED_FLAG_SYMPTOMS, riskRedFlag t = true ∧ riskRedFlag (" " ++ t) = false) := by
  constructor
  · intro symptoms pi sd h
    rw [assess_patient_risk_eq symptoms pi sd h]
    rfl
  · decide

/-- Witness for the amended claim C3 at a concrete token and input. -/
theorem red_flag_normalization_no_strip_witness :
    riskRedFlag "severe_headache" = true ∧ riskRedFlag " severe_headache" = false ∧
    (assess_patient_risk ["fever"] { age := some 30, medical_history := [] } none).red_flag_count =
      (["fever"].filter (fun s => RED_FLAG_SYMPTOMS.contains (pyReplaceSpace (pyLower s)))).length :=
  ⟨(red_flag_normalization_no_strip.2 "severe_headache" (by decide)).1,
   (red_flag_normalization_no_strip.2 "severe_headache" (by decide)).2,
   red_flag_normalization_no_strip.1 ["fever"] { age := some 30, medical_history := [] } none (by decide)⟩

/-- Claim C4: for every non-empty symptom list, possible_conditions is the
set union over the normalized input symptoms of their symptom→condition
table entries — symptoms without an entry contribute nothing — and each
condition appears at most once. -/
theorem possible_conditions_union_property (symptoms : List String) (h : symptoms ≠ []) :
    (∀ c, c ∈ (lookup_medical_conditions symptoms).possible_conditions ↔
      ∃ s ∈ symptoms, c ∈ (SYMPTOM_CONDITIONS.lookup (pyStrip (pyLower s))).getD []) ∧
    (lookup_medical_conditions symptoms).possible_conditions.Nodup := by
  rw [lookup_medical_conditions_eq symptoms h]
  constructor
  · intro c
    show c ∈ get_conditions_for_symptoms _ ↔ _
    unfold get_conditions_for_symptoms
    rw [mem_foldl_condUnionStep]
    simp only [List.not_mem_nil, false_or, List.mem_map]
    constructor
    · rintro ⟨s, ⟨s0, hs0, rfl⟩, hc⟩
      exact ⟨s0, hs0, hc⟩
    · rintro ⟨s0, hs0, hc⟩
      exact ⟨pyStrip (pyLower s0), ⟨s0, hs0, rfl⟩, hc⟩
  · exact nodup_foldl_condUnionStep _ _ List.nodup_nil

/-- Witness for claim C4: with input ["FeVer ", "cough"], flu is a possible
condition exactly because some input symptom's normalized table entry
contains it. -/
theorem possible_conditions_union_property_witness :
    "flu" ∈ (lookup_medical_conditions ["FeVer ", "cough"]).possible_conditions ↔
      ∃ s ∈ ["FeVer ", "cough"],
        "flu" ∈ (SYMPTOM_CONDITIONS.lookup (pyStrip (pyLower s))).getD [] :=
  (possible_conditions_union_property ["FeVer ", "cough"] (by decide)).1 "flu"

/-- Claim C5: generate_care_recommendations selects the emergency block
whenever immediate_attention_required is set or care_level is "emergency"
(defensive OR), otherwise exactly one of the urgent/moderate/routine blocks;
primary_recommendations is exactly the selected 3-entry block (the first 3
entries of the combined list) and additional_recommendations is the
condition-specific entries followed by the fixed 5-item general list. -/
theorem recommendation_split_structure (ra : RiskAssessmentInput) (conds : List String) :
    (generate_care_recommendations ra conds).primary_recommendations =
      (if ra.immediate_attention_required = true ∨ ra.care_level = "emergency" then EMERGENCY_RECOMMENDATIONS
       else if ra.care_level = "urgent" then URGENT_RECOMMENDATIONS
       else if ra.care_level = "moderate" then MODERATE_RECOMMENDATIONS
       else ROUTINE_RECOMMENDATIONS) ∧
    (generate_care_recommendations ra conds).additional_recommendations =
      conditionRecommendations conds ++ GENERAL_RECOMMENDATIONS := by
  unfold generate_care_recommendations
  split_ifs with h1 h2 h3 <;>
    simp_all [EMERGENCY_RECOMMENDATIONS, URGENT_RECOMMENDATIONS, MODERATE_RECOMMENDATIONS,
      ROUTINE_RECOMMENDATIONS]

/-- Claim C6: for non-empty input, analyze_symptom_pattern always succeeds;
average_severity is the exact mean of the severities that parse as integers
(unparsable or missing ones excluded), 0 when none parse; and only the
pattern_summary string renders the value rounded to one decimal place. -/
theorem average_severity_exact_mean (swd : List (String × Details)) (h : swd ≠ []) :
    (analyze_symptom_pattern swd).status = "success" ∧
    (parsedSeverities swd ≠ [] →
      (analyze_symptom_pattern swd).average_severity =
        mkRat (parsedSeverities swd).sum (parsedSeverities swd).length) ∧
    (parsedSeverities swd = [] → (analyze_symptom_pattern swd).average_severity = 0) ∧
    (analyze_symptom_pattern swd).pattern_summary =
      "Patient reports " ++ toString swd.length ++ " symptoms with average severity " ++
        fmt1 (analyze_symptom_pattern swd).average_severity := by
  rw [analyze_symptom_pattern_eq swd h]
  refine ⟨rfl, ?_, ?_, ?_⟩
  · intro hp
    unfold averageSeverity
    simp [List.isEmpty_iff, hp]
  · intro hp
    unfold averageSeverity
    simp [List.isEmpty_iff, hp]
  · simp [List.length_map]

/-- Witness for claim C6 at severities "8" and "7": the numeric field is the
full-precision 15/2, and the summary embeds the one-decimal rendering. -/
theorem average_severity_exact_mean_witness :
    (analyze_symptom_pattern
      [("a", Details.dict (some (PyVal.pyStr "8")) none),
       ("b", Details.dict (some (PyVal.pyStr "7")) none)]).average_severity =
      mkRat (parsedSeverities
        [("a", Details.dict (some (PyVal.pyStr "8")) none),
         ("b", Details.dict (some (PyVal.pyStr "7")) none)]).sum
        (parsedSeverities
        [("a", Details.dict (some (PyVal.pyStr "8")) none),
         ("b", Details.dict (some (PyVal.pyStr "7")) none)]).length ∧
    (analyze_symptom_pattern
      [("a", Details.dict (some (PyVal.pyStr "8")) none),
       ("b", Details.dict (some (PyVal.pyStr "7")) none)]).average_severity = mkRat 15 2 ∧
    (analyze_symptom_pattern
      [("a", Details.dict (some (PyVal.pyStr "8")) none),
       ("b", Details.dict (some (PyVal.pyStr "7")) none)]).pattern_summary =
      "Patient reports 2 symptoms with average severity 7.5" :=
  ⟨(average_severity_exact_mean
      [("a", Details.dict (some (PyVal.pyStr "8")) none),
       ("b", Details.dict (some (PyVal.pyStr "7")) none)] (by decide)).2.1 (by decide),
   by decide, by decide⟩

/-- Claim C7: on empty input each of the three analysis operations returns a
normal error result — status "error" with a non-empty message — rather than
raising, for every patient_info and symptom_details. -/
theorem empty_input_error_results :
    (lookup_medical_conditions []).status = "error" ∧
    (lookup_medical_conditions []).message ≠ "" ∧
    (analyze_symptom_pattern []).status = "error" ∧
    (analyze_symptom_pattern []).message ≠ "" ∧
    ∀ (patient_info : PatientInfo) (symptom_details : Option (List (String × Details))),
      (assess_patient_risk [] patient_info symptom_details).status = "error" ∧
      (assess_patient_risk [] patient_info symptom_details).message ≠ "" := by
  refine ⟨by decide, by decide, by decide, by decide, fun pi sd => ⟨rfl, ?_⟩⟩
  have h : (assess_patient_risk [] pi sd).message = "No symptoms provided for risk assessment" := rfl
  rw [h]
  decide

/-- Claim C8: appending a red-flag token to any symptom list never decreases
assess_patient_risk's red_flag_count, never lowers its care level in the
order routine < moderate < urgent < emergency, and never turns
lookup_medical_conditions' requires_immediate_attention from true to false. -/
theorem red_flag_append_monotonicity (symptoms : List String) (t : String)
    (ht : t ∈ RED_FLAG_SYMPTOMS)
    (pi : PatientInfo) (sd : Option (List (String × Details))) :
    (assess_patient_risk symptoms pi sd).red_flag_count ≤
      (assess_patient_risk (symptoms ++ [t]) pi sd).red_flag_count ∧
    careRank (assess_patient_risk symptoms pi sd).care_level ≤
      careRank (assess_patient_risk (symptoms ++ [t]) pi sd).care_level ∧
    ((lookup_medical_conditions symptoms).requires_immediate_attention = true →
      (lookup_medical_conditions (symptoms ++ [t])).requires_immediate_attention = true) := by
  have hrf : riskRedFlag t = true := (red_flag_token_tests t ht).1
  have hlk : is_red_flag_symptom (pyStrip (pyLower t)) = true := (red_flag_token_tests t ht).2
  have hne : symptoms ++ [t] ≠ [] := by simp
  have hlen : (redFlagSyms (symptoms ++ [t])).length = (redFlagSyms symptoms).length + 1 := by
    unfold redFlagSyms
    rw [List.filter_append]
    simp [hrf]
  have hcountnew : (assess_patient_risk (symptoms ++ [t]) pi sd).red_flag_count =
      (redFlagSyms symptoms).length + 1 := by
    rw [assess_patient_risk_eq _ _ _ hne]
    exact hlen
  have hlevelnew : (assess_patient_risk (symptoms ++ [t]) pi sd).care_level = "emergency" := by
    rw [assess_patient_risk_eq _ _ _ hne]
    show careLevelOf (redFlagSyms (symptoms ++ [t])).length _ = _
    unfold careLevelOf
    rw [if_pos (Or.inl (by omega))]
  refine ⟨?_, ?_, ?_⟩
  · rw [hcountnew]
    by_cases hs : symptoms = []
    · subst hs
      have h0 : (assess_patient_risk [] pi sd).red_flag_count = 0 := rfl
      rw [h0]
      exact Nat.zero_le _
    · rw [assess_patient_risk_eq _ _ _ hs]
      show (redFlagSyms symptoms).length ≤ _
      omega
  · rw [hlevelnew]
    have h3 : careRank "emergency" = 3 := by decide
    rw [h3]
    exact careRank_le_three _
  · intro _
    rw [lookup_medical_conditions_eq _ hne]
    show decide (_ > 0) = true
    rw [decide_eq_true_eq]
    rw [List.map_append, List.filter_append]
    simp [hlk]

/-- Witness for claim C8 appending "severe_bleeding" to ["cough"]. -/
theorem red_flag_append_monotonicity_witness :
    (assess_patient_risk ["cough"] { age := some 40, medical_history := [] } none).red_flag_count ≤
      (assess_patient_risk (["cough"] ++ ["severe_bleeding"])
        { age := some 40, medical_history := [] } none).red_flag_count ∧
    careRank (assess_patient_risk ["cough"]
        { age := some 40, medical_history := [] } none).care_level ≤
      careRank (assess_patient_risk (["cough"] ++ ["severe_bleeding"])
        { age := some 40, medical_history := [] } none).care_level ∧
    ((lookup_medical_conditions ["cough"]).requires_immediate_attention = true →
      (lookup_medical_conditions (["cough"] ++ ["severe_bleeding"])).requires_immediate_attention = true) :=
  red_flag_append_monotonicity ["cough"] "severe_bleeding" (by decide)
    { age := some 40, medical_history := [] } none

/-- Claim C9: with no "age" key the age defaults to 0, which falls in the
pediatric band, so the applied multiplier is 1.2 (= 6/5), not the 1.0
default reserved for ages outside every band. -/
theorem missing_age_pediatric_multiplier (symptoms : List String) (mh : List String)
    (sd : Option (List (String × Details))) (h : symptoms ≠ []) :
    (assess_patient_risk symptoms { age := none, medical_history := mh } sd).age_risk_multiplier
      = mkRat 6 5 ∧
    (bandFor 0).map AgeBand.name = some "pediatric" ∧
    mkRat 6 5 ≠ (1 : Rat) := by
  obtain ⟨s, ss, rfl⟩ : ∃ a l, symptoms = a :: l := by
    cases symptoms with
    | nil => exact absurd rfl h
    | cons a l => exact ⟨a, l, rfl⟩
  have hm : (assess_patient_risk (s :: ss) { age := none, medical_history := mh } sd).age_risk_multiplier
      = ageMultiplier 0 := rfl
  rw [hm]
  exact ⟨by decide, by decide, by decide⟩

/-- Witness for claim C9 at a concrete call without an age. -/
theorem missing_age_pediatric_multiplier_witness :
    (assess_patient_risk ["fever"] { age := none, medical_history := [] } none).age_risk_multiplier
      = mkRat 6 5 ∧
    (bandFor 0).map AgeBand.name = some "pediatric" ∧
    mkRat 6 5 ≠ (1 : Rat) :=
  missing_age_pediatric_multiplier ["fever"] [] none (by decide)

/-- Claim C10: the age note is appended only when the matched band's
multiplier exceeds 1.0 — for every adult age (18–64) and for ages matching
no band, risk_factors carries no age entry and is exactly the red-flag
notes followed by the history and severity notes. -/
theorem age_note_only_when_multiplier_above_one (age : Int) (mh : List String)
    (symptoms : List String) (sd : Option (List (String × Details))) (h : symptoms ≠ [])
    (hage : (18 ≤ age ∧ age ≤ 64) ∨ age < 0 ∨ 120 < age) :
    (assess_patient_risk symptoms { age := some age, medical_history := mh } sd).risk_factors =
      (redFlagSyms symptoms).map (fun s => "Red flag symptom: " ++ s) ++
      (historyMatches mh).map (fun c => "Medical history: " ++ c) ++
      (sevEntries sd).map Prod.snd := by
  rw [assess_patient_risk_eq _ _ _ h]
  have hAF : ageFactors age = [] := by
    unfold ageFactors
    rcases hage with ⟨h1, h2⟩ | h3
    · rw [bandFor_adult age h1 h2]
      simp
    · rw [bandFor_outside age h3]
  simp [hAF]

/-- Witness for claim C10 at age 30 with a red flag and a history match. -/
theorem age_note_only_when_multiplier_above_one_witness :
    (assess_patient_risk ["severe_chest_pain"]
      { age := some 30, medical_history := ["diabetes"] } none).risk_factors =
      (redFlagSyms ["severe_chest_pain"]).map (fun s => "Red flag symptom: " ++ s) ++
      (historyMatches ["diabetes"]).map (fun c => "Medical history: " ++ c) ++
      (sevEntries none).map Prod.snd :=
  age_note_only_when_multiplier_above_one 30 ["diabetes"] ["severe_chest_pain"] none
    (by decide) (by omega)

end Triage
